import Mathlib

/-!
Verification development for the `RockEssentialsGroundConstructor` module
(src/src/constructor/RockEssentialsGroundConstructor.py).

The module is a scripted sequence of mutations against a host (Blender)
scene graph, driven by a configuration.  We embed:

  * the configuration values and the `Config` lookup wrappers,
  * a model of the host scene state (objects, materials with node trees,
    modifiers, textures, node groups, active object, mode) together with
    an event trace recording every host operator / data-creation call,
  * the module's four functions `run`, `_load_shader`,
    `_construct_ground_plane` and `_create_node`, line by line, as
    error-threading functions `Scene → Except (String × Scene) Scene`
    (an error carries the scene state at the point of failure, matching
    a propagating Python exception with no rollback).
-/

/-- A configuration value (the JSON-like values a tile dictionary holds). -/
inductive Val where
  | str (s : String)
  | int (n : Int)
  | float (q : Rat)
  | boolean (b : Bool)
  | list (vs : List Val)
  | dict (entries : List (String × Val))

/-- Python truthiness of a configuration value (`if tile:` in `run`). -/
def truthy : Val → Bool
  | .str s => !(s == "")
  | .int n => !(n == 0)
  | .float q => !(q == 0)
  | .boolean b => b
  | .list vs => !vs.isEmpty
  | .dict es => !es.isEmpty

/-- Modelled from the spec: the configuration-loading utility `Config`
(src/utility/Config.py, not under src/) is described as a "simple
key-lookup-with-default wrapper"; we model it as an association list with
first-match lookup. -/
structure Config where
  data : List (String × Val)

/-- Modelled from the spec: first-match key lookup in a `Config`. -/
def Config.lookup (c : Config) (k : String) : Option Val :=
  (c.data.find? (fun p => p.1 == k)).map Prod.snd

/-- Modelled from the spec: `Config.get_string(key, default)`.  A missing
key with no default raises; a present key must hold a string. -/
def Config.get_string (c : Config) (k : String) (d : Option String) :
    Except String String :=
  match c.lookup k with
  | some (.str s) => .ok s
  | some _ => .error ("wrong type for key " ++ k)
  | none =>
      match d with
      | some s => .ok s
      | none => .error ("key " ++ k ++ " not found")

/-- Modelled from the spec: `Config.get_int(key, default)`. -/
def Config.get_int (c : Config) (k : String) (d : Int) : Except String Int :=
  match c.lookup k with
  | some (.int n) => .ok n
  | some _ => .error ("wrong type for key " ++ k)
  | none => .ok d

/-- Modelled from the spec: `Config.get_float(key, default)`; an integer
value is accepted and converted. -/
def Config.get_float (c : Config) (k : String) (d : Rat) : Except String Rat :=
  match c.lookup k with
  | some (.float q) => .ok q
  | some (.int n) => .ok (n : Rat)
  | some _ => .error ("wrong type for key " ++ k)
  | none => .ok d

/-- Modelled from the spec: `Config.get_list(key, default)`. -/
def Config.get_list (c : Config) (k : String) (d : List Val) :
    Except String (List Val) :=
  match c.lookup k with
  | some (.list vs) => .ok vs
  | some _ => .error ("wrong type for key " ++ k)
  | none => .ok d

/-- Numeric view of a configuration value. -/
def Val.toRat? : Val → Option Rat
  | .int n => some (n : Rat)
  | .float q => some q
  | _ => none

/-- Modelled from the spec: `Config.get_vector3d(key, default)`; the value
must be a list of three numbers. -/
def Config.get_vector3d (c : Config) (k : String) (d : List Rat) :
    Except String (List Rat) :=
  match c.lookup k with
  | none => .ok d
  | some (.list vs) =>
      match vs.mapM Val.toRat? with
      | some rs =>
          if rs.length = 3 then .ok rs
          else .error ("cannot convert value of key " ++ k ++ " to vector3d")
      | none => .error ("cannot convert value of key " ++ k ++ " to vector3d")
  | some _ => .error ("wrong type for key " ++ k)

/-- Boolean list-prefix test (kernel-computable). -/
def listPrefix : List Char → List Char → Bool
  | [], _ => true
  | _ :: _, [] => false
  | a :: as, b :: bs => a == b && listPrefix as bs

/-- Boolean list-infix test (kernel-computable). -/
def listInfix (p : List Char) : List Char → Bool
  | [] => listPrefix p []
  | c :: rest => listPrefix p (c :: rest) || listInfix p rest

/-- `s` starts with `p`. -/
def strStartsWith (s p : String) : Bool := listPrefix p.data s.data

/-- `s` ends with `p`. -/
def strEndsWith (s p : String) : Bool := listPrefix p.data.reverse s.data.reverse

/-- One step of Python's `os.path.join`: an absolute component resets the
result, otherwise a single separator is inserted. -/
def ospJoinStep (acc p : String) : String :=
  if strStartsWith p "/" then p
  else if acc = "" then p
  else if strEndsWith acc "/" then acc ++ p
  else acc ++ "/" ++ p

/-- Python's `os.path.join` over a non-empty list of components. -/
def ospJoin : List String → String
  | [] => ""
  | p :: ps => ps.foldl ospJoinStep p

/-- Blender-style numeric suffix used to make names unique
(".001", ".002", ...). -/
def natSuffix (n : Nat) : String :=
  if n < 10 then ".00" ++ toString n
  else if n < 100 then ".0" ++ toString n
  else "." ++ toString n

/-- Blender name assignment: the requested base name if free, otherwise the
first free suffixed variant. -/
def freshName (base : String) (taken : List String) : String :=
  if taken.contains base then
    match (List.range (taken.length + 1)).find?
        (fun k => !(taken.contains (base ++ natSuffix (k + 1)))) with
    | some k => base ++ natSuffix (k + 1)
    | none => base
  else base

/-- Substring test (Python's `in` on strings), used by the node-type
filter. -/
def hasSubstr (s pat : String) : Bool := listInfix pat.data s.data

/-- A shader node in a material node tree.  `nodeTreeRef` is the referenced
node group of a `ShaderNodeGroup`; `aoDefault` records an assignment to
`inputs["AO"].default_value`. -/
structure SNode where
  name : String
  bl_idname : String
  label : String := ""
  nodeTreeRef : Option String := none
  aoDefault : Option (List Val) := none

/-- A link in a material node tree, between named sockets of named nodes. -/
structure SLink where
  fromNode : String
  fromSocket : String
  toNode : String
  toSocket : String

/-- A material with its node tree. -/
structure Material where
  name : String
  use_nodes : Bool := false
  nodes : List SNode := []
  links : List SLink := []

/-- An object modifier (only the fields the module touches). -/
structure Modifier where
  mtype : String
  name : String
  render_levels : Int := 2
  strength : Rat := 1
  texture : Option String := none
  texture_coords : String := "LOCAL"

/-- A scene object.  `bakedScale` is the scale already applied to the mesh
data (`transform_apply` folds `scale` into it); `subdivideCuts` records the
edit-mode subdivide calls applied to the mesh. -/
structure Obj where
  oid : Nat
  name : String
  scale : List Rat := [1, 1, 1]
  bakedScale : List Rat := [1, 1, 1]
  materials : List String := []
  modifiers : List Modifier := []
  subdivideCuts : List Int := []
  props : List (String × Bool) := []

/-- One host-API call, as recorded in the trace. -/
inductive BpyEvent where
  | wmAppend (filepath filename directory : String)
  | primitivePlaneAdd
  | materialsNew (requested : String)
  | modeSet (mode : String)
  | meshSubdivide (numberCuts : Int)
  | modifierAdd (mtype : String)
  | texturesNew (requested ttype : String)
  | editmodeToggle
  | transformApply (location rotation scale : Bool)
deriving DecidableEq

/-- The host scene state.  `assets` is the immutable environment of
appendable asset sections, as `(directory, filename)` pairs; `context` is
the active object's id; `trace` records every host call made so far. -/
structure Scene where
  nextId : Nat := 0
  objects : List Obj := []
  materials : List Material := []
  node_groups : List String := []
  textures : List (String × String) := []
  assets : List (String × String) := []
  context : Option Nat := none
  mode : String := "OBJECT"
  trace : List BpyEvent := []

/-- An error value: the raised message together with the scene state at
the point of failure (a propagating Python exception; nothing is rolled
back). -/
abbrev Err := String × Scene

/-- Lift a configuration-lookup result into the scene-threading error
monad; a lookup failure raises before any mutation, so it carries the
current scene unchanged. -/
def liftC {α : Type} (s : Scene) : Except String α → Except Err α
  | .ok a => .ok a
  | .error m => .error (m, s)

/-- Append an event to the trace. -/
def pushEv (e : BpyEvent) (s : Scene) : Scene :=
  { s with trace := s.trace ++ [e] }

/-- Update the object with the given id. -/
def Scene.updateObj (s : Scene) (i : Nat) (f : Obj → Obj) : Scene :=
  { s with objects := s.objects.map (fun o => if o.oid = i then f o else o) }

/-- Update the material with the given name. -/
def Scene.updateMat (s : Scene) (nm : String) (f : Material → Material) :
    Scene :=
  { s with materials :=
      s.materials.map (fun m => if m.name = nm then f m else m) }

/-- Host model: `bpy.ops.wm.append`.  Appending succeeds when the asset
environment provides the `(directory, filename)` section, adding the node
group under its filename; otherwise it raises. -/
def wm_append (filepath filename directory : String) (s : Scene) :
    Except Err Scene :=
  if s.assets.contains (directory, filename) then
    .ok (pushEv (.wmAppend filepath filename directory)
      { s with node_groups := s.node_groups ++ [filename] })
  else .error ("append failed: " ++ filepath, s)

/-- Host model: `bpy.ops.mesh.primitive_plane_add()` creates a fresh
object (Blender-unique name based on "Plane", unit scale) and makes it the
active object. -/
def primitive_plane_add (s : Scene) : Scene :=
  let nm := freshName "Plane" (s.objects.map Obj.name)
  pushEv .primitivePlaneAdd
    { s with nextId := s.nextId + 1,
             objects := s.objects ++ [{ oid := s.nextId, name := nm }],
             context := some s.nextId }

/-- Host model: `bpy.context.object.name = nm` renames the active object;
raises when there is no active object. -/
def context_object_set_name (nm : String) (s : Scene) : Except Err Scene :=
  match s.context with
  | some i => .ok (s.updateObj i (fun o => { o with name := nm }))
  | none => .error ("AttributeError: context.object is None", s)

/-- Host model: `bpy.data.objects[nm]` resolves a name to an object
reference (first match), raising `KeyError` when absent. -/
def data_objects_get (nm : String) (s : Scene) : Except Err Nat :=
  match s.objects.find? (fun o => o.name == nm) with
  | some o => .ok o.oid
  | none => .error ("KeyError: bpy.data.objects[" ++ nm ++ "]", s)

/-- Host model: `obj.scale = v`. -/
def obj_set_scale (i : Nat) (v : List Rat) (s : Scene) : Scene :=
  s.updateObj i (fun o => { o with scale := v })

/-- Host model: `bpy.data.materials.new(name=nm)` creates a material under
a Blender-unique name and returns the reference. -/
def materials_new (nm : String) (s : Scene) : String × Scene :=
  let actual := freshName nm (s.materials.map Material.name)
  (actual, pushEv (.materialsNew nm)
    { s with materials := s.materials ++ [{ name := actual }] })

/-- The node tree Blender creates when `use_nodes` is enabled: a
Principled BSDF linked into the material output. -/
def defaultNodes : List SNode :=
  [{ name := "Principled BSDF", bl_idname := "ShaderNodeBsdfPrincipled" },
   { name := "Material Output", bl_idname := "ShaderNodeOutputMaterial" }]

/-- The default link accompanying `defaultNodes`. -/
def defaultLinks : List SLink :=
  [⟨"Principled BSDF", "BSDF", "Material Output", "Surface"⟩]

/-- Host model: `mat.use_nodes = True` enables nodes and populates the
default node tree. -/
def mat_set_use_nodes (nm : String) (s : Scene) : Scene :=
  s.updateMat nm (fun m =>
    { m with use_nodes := true, nodes := defaultNodes, links := defaultLinks })

/-- Host model: `obj.data.materials.append(mat)`. -/
def obj_add_material (i : Nat) (matName : String) (s : Scene) : Scene :=
  s.updateObj i (fun o => { o with materials := o.materials ++ [matName] })

/-- Host model: reading a material reference back (always valid for a
reference obtained from `materials_new`). -/
def data_materials_get (nm : String) (s : Scene) : Except Err Material :=
  match s.materials.find? (fun m => m.name == nm) with
  | some m => .ok m
  | none => .error ("KeyError: bpy.data.materials[" ++ nm ++ "]", s)

/-- Host model: `nodes.remove(node)` removes the node and every link
attached to it. -/
def nodes_remove (matName nodeName : String) (s : Scene) : Scene :=
  s.updateMat matName (fun m =>
    { m with nodes := m.nodes.filter (fun n => !(n.name == nodeName)),
             links := m.links.filter (fun l =>
               !(l.fromNode == nodeName) && !(l.toNode == nodeName)) })

/-- Default Blender node name for each node type used by the module. -/
def nodeBaseName : String → String
  | "ShaderNodeGroup" => "Group"
  | "ShaderNodeTexImage" => "Image Texture"
  | "ShaderNodeNormalMap" => "Normal Map"
  | t => t

/-- Host model: `nodes.new(ntype)` appends a node under a tree-unique
default name and returns that name. -/
def nodes_new (matName ntype : String) (s : Scene) : String × Scene :=
  match s.materials.find? (fun m => m.name == matName) with
  | some m =>
      let nm := freshName (nodeBaseName ntype) (m.nodes.map SNode.name)
      (nm, s.updateMat matName (fun m2 =>
        { m2 with nodes := m2.nodes ++ [{ name := nm, bl_idname := ntype }] }))
  | none => ("", s)

/-- Host model: `bpy.data.node_groups[nm]`, raising `KeyError` when the
node group was never appended. -/
def node_groups_get (nm : String) (s : Scene) : Except Err String :=
  if s.node_groups.contains nm then .ok nm
  else .error ("KeyError: bpy.data.node_groups[" ++ nm ++ "]", s)

/-- Host model: `node.node_tree = tree` on a group node. -/
def node_set_tree (matName nodeName tree : String) (s : Scene) : Scene :=
  s.updateMat matName (fun m =>
    { m with nodes := m.nodes.map (fun n =>
        if n.name = nodeName then { n with nodeTreeRef := some tree } else n) })

/-- Host model: `node.inputs["AO"].default_value = ao`. -/
def node_set_ao (matName nodeName : String) (ao : List Val) (s : Scene) :
    Scene :=
  s.updateMat matName (fun m =>
    { m with nodes := m.nodes.map (fun n =>
        if n.name = nodeName then { n with aoDefault := some ao } else n) })

/-- Host model: `node.label = l`. -/
def node_set_label (matName nodeName l : String) (s : Scene) : Scene :=
  s.updateMat matName (fun m =>
    { m with nodes := m.nodes.map (fun n =>
        if n.name = nodeName then { n with label := l } else n) })

/-- Host model: `links.new(a, b)` appends a link. -/
def links_new (matName fromN fromS toN toS : String) (s : Scene) : Scene :=
  s.updateMat matName (fun m =>
    { m with links := m.links ++ [⟨fromN, fromS, toN, toS⟩] })

/-- Python `xs[0]` on a node list (`IndexError` when empty). -/
def pyIndex0 (xs : List SNode) (s : Scene) : Except Err SNode :=
  match xs with
  | x :: _ => .ok x
  | [] => .error ("IndexError: list index out of range", s)

/-- Python `nodes[-1]` (`IndexError` when empty). -/
def pyLast (xs : List SNode) (s : Scene) : Except Err SNode :=
  match xs.getLast? with
  | some x => .ok x
  | none => .error ("IndexError: list index out of range", s)

/-- Python `nodes[-2]` (`IndexError` when fewer than two nodes). -/
def pyPenult (xs : List SNode) (s : Scene) : Except Err SNode :=
  match xs.reverse with
  | _ :: y :: _ => .ok y
  | _ => .error ("IndexError: list index out of range", s)

/-- Python `nodes.get(nm)` followed by attribute access: `None` has no
attributes, so a missing name raises. -/
def pyNodesGet (xs : List SNode) (nm : String) (s : Scene) :
    Except Err SNode :=
  match xs.find? (fun n => n.name == nm) with
  | some n => .ok n
  | none => .error ("AttributeError: NoneType has no attribute", s)

/-- Host model: `bpy.ops.object.mode_set(mode=m)`. -/
def mode_set (m : String) (s : Scene) : Scene :=
  pushEv (.modeSet m) { s with mode := m }

/-- Host model: `bpy.ops.mesh.subdivide(number_cuts=c)` subdivides the
active object's mesh. -/
def mesh_subdivide (c : Int) (s : Scene) : Except Err Scene :=
  match s.context with
  | some i => .ok (pushEv (.meshSubdivide c)
      (s.updateObj i (fun o =>
        { o with subdivideCuts := o.subdivideCuts ++ [c] })))
  | none => .error ("RuntimeError: context is incorrect", s)

/-- Default Blender modifier name for each modifier type used. -/
def modifierBaseName : String → String
  | "SUBSURF" => "Subdivision"
  | "DISPLACE" => "Displace"
  | t => t

/-- Host model: `bpy.ops.object.modifier_add(type=t)` adds a modifier
with a default, object-unique name to the active object. -/
def modifier_add (t : String) (s : Scene) : Except Err Scene :=
  match s.context with
  | some i =>
      match s.objects.find? (fun o => o.oid == i) with
      | some o =>
          let nm := freshName (modifierBaseName t) (o.modifiers.map Modifier.name)
          .ok (pushEv (.modifierAdd t)
            (s.updateObj i (fun o2 =>
              { o2 with modifiers := o2.modifiers ++ [{ mtype := t, name := nm }] })))
      | none => .error ("RuntimeError: context is incorrect", s)
  | none => .error ("RuntimeError: context is incorrect", s)

/-- Host model: `bpy.data.textures.new(name=nm, type=t)` creates a texture
under a Blender-unique name. -/
def textures_new (nm t : String) (s : Scene) : String × Scene :=
  let actual := freshName nm (s.textures.map Prod.fst)
  (actual, pushEv (.texturesNew nm t)
    { s with textures := s.textures ++ [(actual, t)] })

/-- Host model: `bpy.data.textures[nm]` (first match), raising `KeyError`
when absent. -/
def data_textures_get (nm : String) (s : Scene) : Except Err String :=
  match s.textures.find? (fun p => p.1 == nm) with
  | some p => .ok p.1
  | none => .error ("KeyError: bpy.data.textures[" ++ nm ++ "]", s)

/-- Host model: `obj.modifiers[mname].field = v`; `KeyError` when the
object has no modifier of that name. -/
def obj_modifier_update (i : Nat) (mname : String) (f : Modifier → Modifier)
    (s : Scene) : Except Err Scene :=
  match s.objects.find? (fun o => o.oid == i) with
  | none => .error ("ReferenceError: invalid object", s)
  | some o =>
      match o.modifiers.find? (fun m => m.name == mname) with
      | none => .error ("KeyError: modifiers[" ++ mname ++ "]", s)
      | some _ => .ok (s.updateObj i (fun o2 =>
          { o2 with modifiers := o2.modifiers.map (fun m =>
              if m.name = mname then f m else m) }))

/-- Host model: `bpy.context.object.modifiers[mname].field = v`. -/
def ctx_modifier_update (mname : String) (f : Modifier → Modifier)
    (s : Scene) : Except Err Scene :=
  match s.context with
  | some i => obj_modifier_update i mname f s
  | none => .error ("AttributeError: context.object is None", s)

/-- Host model: `bpy.ops.object.editmode_toggle()`. -/
def editmode_toggle (s : Scene) : Scene :=
  pushEv .editmodeToggle
    { s with mode := if s.mode == "EDIT" then "OBJECT" else "EDIT" }

/-- Host model: `bpy.ops.object.transform_apply(location, rotation,
scale)`; with `scale=True` the active object's scale is folded into the
mesh data and reset to 1. -/
def transform_apply (loc rot sc : Bool) (s : Scene) : Except Err Scene :=
  match s.context with
  | some i => .ok (pushEv (.transformApply loc rot sc)
      (if sc then
        s.updateObj i (fun o =>
          { o with bakedScale := List.zipWith (fun a b => a * b) o.bakedScale o.scale,
                   scale := [1, 1, 1] })
      else s))
  | none => .error ("RuntimeError: context is incorrect", s)

/-- Host model: `obj["physics"] = v` sets a custom property. -/
def obj_set_prop (i : Nat) (k : String) (v : Bool) (s : Scene) : Scene :=
  s.updateObj i (fun o =>
    { o with props := (o.props.filter (fun p => !(p.1 == k))) ++ [(k, v)] })

/-- Modelled from the spec: `Utility.get_nodes_with_type` (src/utility/
Utility.py, not under src/) selects the nodes whose type identifier
contains the given type string (Python `node_type in node.bl_idname`). -/
def get_nodes_with_type (nodes : List SNode) (node_type : String) :
    List SNode :=
  nodes.filter (fun n => hasSubstr n.bl_idname node_type)

/-- Embedding of `RockEssentialsGroundConstructor._create_node(nodes,
links, map_type, in_point)`: creates a ShaderNodeTexImage, labels it, for
the normal map routes it through a Normal Map node, and links the result
into the input `in_point` of the node named "Group". -/
def create_node (matName mapType inPoint : String) (s0 : Scene) :
    Except Err Scene := do
  let (_, s1) := nodes_new matName "ShaderNodeTexImage" s0
  let mat1 ← data_materials_get matName s1
  let last1 ← pyLast mat1.nodes s1
  let aNode ← pyNodesGet mat1.nodes last1.name s1
  let a0 := (aNode.name, "Color")
  let s2 := node_set_label matName last1.name mapType s1
  let r ←
    if mapType == "normal" then do
      let (gnm, s2a) := nodes_new matName "ShaderNodeNormalMap" s2
      let mat2 ← data_materials_get matName s2a
      let pen ← pyPenult mat2.nodes s2a
      let aN ← pyNodesGet mat2.nodes pen.name s2a
      let s2b := links_new matName aN.name "Color" gnm "Color" s2a
      let mat3 ← data_materials_get matName s2b
      let last3 ← pyLast mat3.nodes s2b
      let nNode ← pyNodesGet mat3.nodes last3.name s2b
      pure ((nNode.name, "Normal"), s2b)
    else pure (a0, s2)
  let a := r.1
  let s3 := r.2
  let mat4 ← data_materials_get matName s3
  let bNode ← pyNodesGet mat4.nodes "Group" s3
  pure (links_new matName a.1 a.2 bNode.name inPoint s3)

/-- Embedding of `RockEssentialsGroundConstructor._load_shader`: reads the
required `shader_path` and appends "PBR Rock Shader" from the NodeTree
section of that file. -/
def load_shader (cfg : Config) (s : Scene) : Except Err Scene := do
  let shader_path ← liftC s (cfg.get_string "shader_path" none)
  wm_append (ospJoin [shader_path, "/NodeTree", "", "PBR Rock Shader"])
    "PBR Rock Shader" (ospJoin [shader_path ++ "/NodeTree"]) s

/-- Embedding of
`RockEssentialsGroundConstructor._construct_ground_plane`, line by
line. -/
def construct_ground_plane (cfg : Config) (s0 : Scene) :
    Except Err Scene := do
  let plane_scale ← liftC s0 (cfg.get_vector3d "plane_scale" [1, 1, 1])
  let subdivision_cuts ← liftC s0 (cfg.get_int "subdivision_cuts" 50)
  let subdivision_render_levels ←
    liftC s0 (cfg.get_int "subdivision_render_levels" 3)
  let displacement_strength ←
    liftC s0 (cfg.get_float "displacement_strength" 1)
  let tile_name ← liftC s0 (cfg.get_string "tile_name" (some "RE_ground_plane"))
  let ao ← liftC s0 (cfg.get_list "AO"
    [Val.int 1, Val.int 1, Val.int 1, Val.int 1])
  let s1 := primitive_plane_add s0
  let s2 ← context_object_set_name tile_name s1
  let pid ← data_objects_get tile_name s2
  let s3 := obj_set_scale pid plane_scale s2
  let ms4 := materials_new "re_ground_mat" s3
  let matName := ms4.1
  let s5 := mat_set_use_nodes matName ms4.2
  let s6 := obj_add_material pid matName s5
  let mat6 ← data_materials_get matName s6
  let principled ← pyIndex0 (get_nodes_with_type mat6.nodes "BsdfPrincipled") s6
  let s7 := nodes_remove matName principled.name s6
  let gs8 := nodes_new matName "ShaderNodeGroup" s7
  let groupName := gs8.1
  let tree ← node_groups_get "PBR Rock Shader" gs8.2
  let s9 := node_set_tree matName groupName tree gs8.2
  let s10 := node_set_ao matName groupName ao s9
  let mat10 ← data_materials_get matName s10
  let output_node ← pyIndex0 (get_nodes_with_type mat10.nodes "OutputMaterial") s10
  let s11 := links_new matName groupName "Shader" output_node.name "Surface" s10
  let s12 ← create_node matName "color" "Color" s11
  let s13 ← create_node matName "roughness" "Roughness" s12
  let s14 ← create_node matName "reflection" "Reflection" s13
  let s15 ← create_node matName "normal" "Normal" s14
  let s16 := mode_set "EDIT" s15
  let s17 ← mesh_subdivide subdivision_cuts s16
  let s18 ← modifier_add "SUBSURF" s17
  let s19 ← modifier_add "DISPLACE" s18
  let texture_name := tile_name ++ "_texture"
  let ts20 := textures_new texture_name "IMAGE" s19
  let texRef ← data_textures_get texture_name ts20.2
  let s21 ← obj_modifier_update pid "Displace"
    (fun m => { m with texture := some texRef }) ts20.2
  let s22 ← obj_modifier_update pid "Displace"
    (fun m => { m with texture_coords := "UV" }) s21
  let s23 := editmode_toggle s22
  let s24 ← transform_apply false false true s23
  let s25 ← ctx_modifier_update "Subdivision"
    (fun m => { m with render_levels := subdivision_render_levels }) s24
  let s26 ← ctx_modifier_update "Displace"
    (fun m => { m with strength := displacement_strength }) s25
  pure (obj_set_prop pid "physics" false s26)

/-- The `Config(tile)` wrapper built inside `run` for one tile value. -/
def tileConfig : Val → Config
  | .dict es => ⟨es⟩
  | _ => ⟨[]⟩

/-- One iteration of the loop in `run`: a truthy tile goes through the
shader-import phase and then the plane-construction phase; a falsy tile is
skipped. -/
def process_tile (t : Val) (s : Scene) : Except Err Scene :=
  if truthy t then do
    let s1 ← load_shader (tileConfig t) s
    construct_ground_plane (tileConfig t) s1
  else .ok s

/-- The loop of `run` over the tile list. -/
def run_tiles : List Val → Scene → Except Err Scene
  | [], s => .ok s
  | t :: ts, s => do
      let s1 ← process_tile t s
      run_tiles ts s1

/-- Embedding of `RockEssentialsGroundConstructor.run`: reads the "tiles"
list (default empty) and processes each tile. -/
def run (cfg : Config) (s : Scene) : Except Err Scene := do
  let tiles ← liftC s (cfg.get_list "tiles" [])
  run_tiles tiles s

/-- The host calls made by the shader-import phase, given the resolved
`shader_path`. -/
def loadEvents (sp : String) : List BpyEvent :=
  [.wmAppend "/NodeTree/PBR Rock Shader" "PBR Rock Shader" (sp ++ "/NodeTree")]

/-- The host calls made by the plane-construction phase, given the
resolved `subdivision_cuts` and `tile_name`. -/
def constructEvents (cuts : Int) (tn : String) : List BpyEvent :=
  [.primitivePlaneAdd, .materialsNew "re_ground_mat", .modeSet "EDIT",
   .meshSubdivide cuts, .modifierAdd "SUBSURF", .modifierAdd "DISPLACE",
   .texturesNew (tn ++ "_texture") "IMAGE", .editmodeToggle,
   .transformApply false false true]

/-- The plane object produced by one plane construction on a scene whose
registries are empty, given the resolved configuration values. -/
def constructedPlane (n : Nat) (ps : List Rat) (cuts srl : Int) (ds : Rat)
    (tn : String) : Obj :=
  { oid := n, name := tn, scale := [1, 1, 1],
    bakedScale := List.zipWith (fun a b => a * b) [1, 1, 1] ps,
    materials := ["re_ground_mat"],
    modifiers :=
      [{ mtype := "SUBSURF", name := "Subdivision", render_levels := srl },
       { mtype := "DISPLACE", name := "Displace", strength := ds,
         texture := some (tn ++ "_texture"), texture_coords := "UV" }],
    subdivideCuts := [cuts],
    props := [("physics", false)] }

/-- The node list of the material built for one tile (in creation order),
given the tile's AO value. -/
def pbrNodes (ao : List Val) : List SNode :=
  [{ name := "Material Output", bl_idname := "ShaderNodeOutputMaterial" },
   { name := "Group", bl_idname := "ShaderNodeGroup",
     nodeTreeRef := some "PBR Rock Shader", aoDefault := some ao },
   { name := "Image Texture", bl_idname := "ShaderNodeTexImage",
     label := "color" },
   { name := "Image Texture.001", bl_idname := "ShaderNodeTexImage",
     label := "roughness" },
   { name := "Image Texture.002", bl_idname := "ShaderNodeTexImage",
     label := "reflection" },
   { name := "Image Texture.003", bl_idname := "ShaderNodeTexImage",
     label := "normal" },
   { name := "Normal Map", bl_idname := "ShaderNodeNormalMap" }]

/-- The link list of the material built for one tile (in creation
order). -/
def pbrLinks : List SLink :=
  [⟨"Group", "Shader", "Material Output", "Surface"⟩,
   ⟨"Image Texture", "Color", "Group", "Color"⟩,
   ⟨"Image Texture.001", "Color", "Group", "Roughness"⟩,
   ⟨"Image Texture.002", "Color", "Group", "Reflection"⟩,
   ⟨"Image Texture.003", "Color", "Normal Map", "Color"⟩,
   ⟨"Normal Map", "Normal", "Group", "Normal"⟩]

/-- The material produced by one plane construction. -/
def constructedMat (ao : List Val) : Material :=
  { name := "re_ground_mat", use_nodes := true, nodes := pbrNodes ao,
    links := pbrLinks }

/-- A scene whose object, material and texture registries are empty; the
node groups, assets, active object, mode and trace are arbitrary. -/
def baseScene (n : Nat) (gs : List String) (as : List (String × String))
    (c0 : Option Nat) (md : String) (tr : List BpyEvent) : Scene :=
  { nextId := n, objects := [], materials := [], node_groups := gs,
    textures := [], assets := as, context := c0, mode := md, trace := tr }

/-- A concrete scene providing the shader asset, used to instantiate the
general theorems. -/
def wScene : Scene :=
  { assets := [("/a/file.blend/NodeTree", "PBR Rock Shader")] }

/-- A concrete well-formed tile configuration. -/
def wTile : Val := Val.dict [("shader_path", Val.str "/a/file.blend")]

/-- The default AO colour. -/
def wAO : List Val := [Val.int 1, Val.int 1, Val.int 1, Val.int 1]

/-- The scene obtained by processing `wTile` from `wScene`. -/
def wFinal : Scene :=
  { nextId := 1,
    objects := [constructedPlane 0 [1, 1, 1] 50 3 1 "RE_ground_plane"],
    materials := [constructedMat wAO],
    node_groups := ["PBR Rock Shader"],
    textures := [("RE_ground_plane_texture", "IMAGE")],
    assets := [("/a/file.blend/NodeTree", "PBR Rock Shader")],
    context := some 0, mode := "OBJECT",
    trace := loadEvents "/a/file.blend" ++ constructEvents 50 "RE_ground_plane" }

/-- The configuration with two identical tiles (both on the default
`tile_name`), exhibiting the name-aliasing behaviour of the module. -/
def cfgDup : Config := ⟨[("tiles", Val.list [wTile, wTile])]⟩

/-- A configuration that carries an extra, unread key next to "tiles". -/
def wCfgA : Config := ⟨[("tiles", Val.list []), ("junk", Val.int 5)]⟩

/-- The same configuration without the extra key. -/
def wCfgB : Config := ⟨[("tiles", Val.list [])]⟩

/-- A tile configuration with an extra, unread key. -/
def wG1 : Config :=
  ⟨[("shader_path", Val.str "/a/file.blend"), ("extra", Val.int 7)]⟩

/-- A truthy tile with no `shader_path`. -/
def wBadTile : Val := Val.dict [("x", Val.int 1)]

/-- A tile whose `shader_path` points to a missing asset. -/
def wMissTile : Val := Val.dict [("shader_path", Val.str "/missing")]

/-- A tile with a valid `shader_path` but a mistyped
`subdivision_cuts`. -/
def wBadCutsTile : Val :=
  Val.dict [("shader_path", Val.str "/a/file.blend"),
            ("subdivision_cuts", Val.str "bad")]

/-- The scene after a successful shader import from `wScene`. -/
def wMid2 : Scene :=
  { wScene with node_groups := ["PBR Rock Shader"],
                trace := loadEvents "/a/file.blend" }

/-- The empty tile-level configuration. -/
def wEmptyCfg : Config := ⟨[]⟩

/-- A configuration with no "tiles" key at all. -/
def wNoTilesCfg : Config := ⟨[("other", Val.int 3)]⟩

/-- A falsy tile (the empty dictionary). -/
def wFalsyTile : Val := Val.dict []

lemma liftC_ok_iff {α : Type} {s : Scene} {x : Except String α} {a : α} :
    liftC s x = .ok a ↔ x = .ok a := by
  cases x <;> simp [liftC]

lemma liftC_error_iff {α : Type} {s : Scene} {x : Except String α} {e : Err} :
    liftC s x = .error e ↔ ∃ m, x = .error m ∧ e = (m, s) := by
  cases x <;> simp [liftC, eq_comm]

lemma bind_ok_iff {α β : Type} {x : Except Err α} {f : α → Except Err β}
    {c : β} :
    (x >>= f) = Except.ok c ↔ ∃ b, x = Except.ok b ∧ f b = Except.ok c := by
  cases x <;> simp [Bind.bind, Except.bind]

lemma bind_error_of_error {α β : Type} {x : Except Err α}
    {f : α → Except Err β} {e : Err} (h : x = Except.error e) :
    (x >>= f) = Except.error e := by
  subst h; rfl

lemma bind_error_of_ok {α β : Type} {x : Except Err α}
    {f : α → Except Err β} {b : α} {e : Err} (h : x = Except.ok b)
    (h2 : f b = Except.error e) : (x >>= f) = Except.error e := by
  subst h; simpa [Bind.bind, Except.bind] using h2

lemma pure_ok_iff {α : Type} {x y : α} :
    (pure x : Except Err α) = Except.ok y ↔ x = y := by
  simp [Pure.pure, Except.pure]

lemma ospJoin_single (x : String) : ospJoin [x] = x := rfl

lemma ospJoin_shader (sp : String) :
    ospJoin [sp, "/NodeTree", "", "PBR Rock Shader"] =
      "/NodeTree/PBR Rock Shader" := by
  have h1 : ospJoinStep sp "/NodeTree" = "/NodeTree" := by
    have hc : strStartsWith "/NodeTree" "/" = true := by decide
    unfold ospJoinStep
    rw [hc]
    simp
  calc ospJoin [sp, "/NodeTree", "", "PBR Rock Shader"]
      = ["", "PBR Rock Shader"].foldl ospJoinStep (ospJoinStep sp "/NodeTree") :=
        rfl
    _ = ["", "PBR Rock Shader"].foldl ospJoinStep "/NodeTree" := by rw [h1]
    _ = "/NodeTree/PBR Rock Shader" := by decide

/-- Successful shader import, characterised: the required `shader_path`
resolves, the asset section exists, and the effect is exactly one append
call registering the node group "PBR Rock Shader". -/
lemma load_shader_ok_iff {cfg : Config} {s s' : Scene} :
    load_shader cfg s = .ok s' ↔
      ∃ sp, cfg.get_string "shader_path" none = .ok sp ∧
        s.assets.contains (sp ++ "/NodeTree", "PBR Rock Shader") = true ∧
        s' = pushEv (.wmAppend "/NodeTree/PBR Rock Shader" "PBR Rock Shader"
              (sp ++ "/NodeTree"))
            { s with node_groups := s.node_groups ++ ["PBR Rock Shader"] } := by
  constructor
  · intro h
    simp only [load_shader, bind_ok_iff, liftC_ok_iff] at h
    obtain ⟨sp, hsp, happ⟩ := h
    refine ⟨sp, hsp, ?_, ?_⟩
    · by_contra hc
      simp only [wm_append, ospJoin_single, Bool.not_eq_true] at happ hc
      rw [hc] at happ
      simp at happ
    · simp only [wm_append, ospJoin_single, ospJoin_shader] at happ
      split at happ
      · simpa [eq_comm] using happ
      · simp at happ
  · rintro ⟨sp, hsp, hc, rfl⟩
    simp only [load_shader, bind_ok_iff, liftC_ok_iff]
    refine ⟨sp, hsp, ?_⟩
    rw [wm_append, ospJoin_single, ospJoin_shader, if_pos hc]

lemma trace_updateObj (s : Scene) (i : Nat) (f : Obj → Obj) :
    (s.updateObj i f).trace = s.trace := rfl

lemma trace_updateMat (s : Scene) (nm : String) (f : Material → Material) :
    (s.updateMat nm f).trace = s.trace := rfl

lemma trace_context_object_set_name {nm : String} {s s' : Scene}
    (h : context_object_set_name nm s = .ok s') : s'.trace = s.trace := by
  unfold context_object_set_name at h
  cases hc : s.context <;> rw [hc] at h <;> simp at h
  subst h; rfl

lemma trace_nodes_new (matName ntype : String) (s : Scene) :
    ((nodes_new matName ntype s).2).trace = s.trace := by
  unfold nodes_new
  cases h : s.materials.find? (fun m => m.name == matName) <;> simp [trace_updateMat]

lemma trace_obj_modifier_update {i : Nat} {mname : String}
    {f : Modifier → Modifier} {s s' : Scene}
    (h : obj_modifier_update i mname f s = .ok s') : s'.trace = s.trace := by
  unfold obj_modifier_update at h
  cases h1 : s.objects.find? (fun o => o.oid == i) <;> simp only [h1] at h
  · simp at h
  · rename_i o
    cases h2 : o.modifiers.find? (fun m => m.name == mname) <;>
      simp only [h2] at h <;> simp at h
    subst h; rfl

lemma trace_ctx_modifier_update {mname : String} {f : Modifier → Modifier}
    {s s' : Scene} (h : ctx_modifier_update mname f s = .ok s') :
    s'.trace = s.trace := by
  unfold ctx_modifier_update at h
  cases hc : s.context <;> rw [hc] at h
  · simp at h
  · exact trace_obj_modifier_update h

lemma trace_mesh_subdivide {c : Int} {s s' : Scene}
    (h : mesh_subdivide c s = .ok s') :
    s'.trace = s.trace ++ [.meshSubdivide c] := by
  unfold mesh_subdivide at h
  cases hc : s.context <;> rw [hc] at h <;> simp at h
  subst h; rfl

lemma trace_modifier_add {t : String} {s s' : Scene}
    (h : modifier_add t s = .ok s') :
    s'.trace = s.trace ++ [.modifierAdd t] := by
  unfold modifier_add at h
  cases hc : s.context <;> simp only [hc] at h
  · simp at h
  · rename_i i
    cases h1 : s.objects.find? (fun o => o.oid == i) <;>
      simp only [h1] at h <;> simp at h
    subst h; rfl

lemma trace_transform_apply {l r sc : Bool} {s s' : Scene}
    (h : transform_apply l r sc s = .ok s') :
    s'.trace = s.trace ++ [.transformApply l r sc] := by
  unfold transform_apply at h
  cases hc : s.context <;> rw [hc] at h <;> simp at h
  subst h
  cases sc <;> rfl

/-- `_create_node` makes no host operator calls: a successful call leaves
the trace unchanged. -/
lemma trace_create_node {matName mapType inPoint : String} {s s' : Scene}
    (h : create_node matName mapType inPoint s = .ok s') :
    s'.trace = s.trace := by
  simp only [create_node, bind_ok_iff, pure_ok_iff, exists_eq_left'] at h
  obtain ⟨mat1, _, last1, _, aNode, _, hr⟩ := h
  split at hr
  · simp only [bind_ok_iff, pure_ok_iff, exists_eq_left'] at hr
    obtain ⟨mat2, _, pen, _, aN, _, mat3, _, last3, _, nNode, _, mat4, _,
      bNode, _, hfin⟩ := hr
    rw [← hfin]
    simp [links_new, Scene.updateMat, node_set_label, trace_nodes_new]
  · simp only [bind_ok_iff, pure_ok_iff, exists_eq_left'] at hr
    obtain ⟨mat4, _, bNode, _, hfin⟩ := hr
    rw [← hfin]
    simp [links_new, Scene.updateMat, node_set_label, trace_nodes_new]

/-- A successful plane construction makes exactly the nine host calls of
`constructEvents`, in order, appended to the existing trace. -/
lemma construct_ok_trace {cfg : Config} {s s' : Scene}
    (h : construct_ground_plane cfg s = .ok s') :
    ∃ cuts tn, cfg.get_int "subdivision_cuts" 50 = .ok cuts ∧
      cfg.get_string "tile_name" (some "RE_ground_plane") = .ok tn ∧
      s'.trace = s.trace ++ constructEvents cuts tn := by
  simp only [construct_ground_plane, bind_ok_iff, liftC_ok_iff, pure_ok_iff,
    exists_eq_left'] at h
  obtain ⟨ps, hps, cuts, hcuts, srl, hsrl, ds, hds, tn, htn, ao, hao,
    s2, h2, pid, hpid, mat6, _, principled, _, tree, _, mat10, _, outn, _,
    s12, h12, s13, h13, s14, h14, s15, h15, s17, h17, s18, h18, s19, h19,
    texR, _, s21, h21, s22, h22, s24, h24, s25, h25, s26, h26, hfin⟩ := h
  refine ⟨cuts, tn, hcuts, htn, ?_⟩
  have e2 : s2.trace = s.trace ++ [.primitivePlaneAdd] := by
    rw [trace_context_object_set_name h2]; rfl
  have e12 : s12.trace = s2.trace ++ [.materialsNew "re_ground_mat"] := by
    rw [trace_create_node h12]
    simp [links_new, node_set_ao, node_set_tree, nodes_remove,
      obj_add_material, mat_set_use_nodes, materials_new, obj_set_scale,
      Scene.updateMat, Scene.updateObj, pushEv, trace_nodes_new]
  have e15 : s15.trace = s12.trace := by
    rw [trace_create_node h15, trace_create_node h14, trace_create_node h13]
  have e17 : s17.trace = s15.trace ++ [.modeSet "EDIT", .meshSubdivide cuts] := by
    rw [trace_mesh_subdivide h17]
    simp [mode_set, pushEv]
  have e19 : s19.trace = s17.trace ++ [.modifierAdd "SUBSURF", .modifierAdd "DISPLACE"] := by
    rw [trace_modifier_add h19, trace_modifier_add h18]
    simp
  have e22 : s22.trace = s19.trace ++ [.texturesNew (tn ++ "_texture") "IMAGE"] := by
    rw [trace_obj_modifier_update h22, trace_obj_modifier_update h21]
    simp [textures_new, pushEv]
  have e24 : s24.trace = s22.trace ++ [.editmodeToggle, .transformApply false false true] := by
    rw [trace_transform_apply h24]
    simp [editmode_toggle, pushEv]
  have e26 : s26.trace = s24.trace := by
    rw [trace_ctx_modifier_update h26, trace_ctx_modifier_update h25]
  have efin : s'.trace = s26.trace := by
    rw [← hfin]; rfl
  rw [efin, e26, e24, e22, e19, e17, e15, e12, e2]
  simp [constructEvents]

lemma freshName_nil (b : String) : freshName b [] = b := rfl

lemma freshName_displace :
    freshName "Displace" ["Subdivision"] = "Displace" := by decide

lemma freshName_group :
    freshName "Group" ["Material Output"] = "Group" := by decide

lemma freshName_it0 :
    freshName "Image Texture" ["Material Output", "Group"] =
      "Image Texture" := by decide

lemma freshName_it1 :
    freshName "Image Texture" ["Material Output", "Group", "Image Texture"] =
      "Image Texture.001" := by decide

lemma freshName_it2 :
    freshName "Image Texture"
      ["Material Output", "Group", "Image Texture", "Image Texture.001"] =
      "Image Texture.002" := by decide

lemma freshName_it3 :
    freshName "Image Texture"
      ["Material Output", "Group", "Image Texture", "Image Texture.001",
       "Image Texture.002"] = "Image Texture.003" := by decide

lemma freshName_norm :
    freshName "Normal Map"
      ["Material Output", "Group", "Image Texture", "Image Texture.001",
       "Image Texture.002", "Image Texture.003"] = "Normal Map" := by decide

lemma hasSubstr_bp_bp :
    hasSubstr "ShaderNodeBsdfPrincipled" "BsdfPrincipled" = true := by decide

lemma hasSubstr_om_bp :
    hasSubstr "ShaderNodeOutputMaterial" "BsdfPrincipled" = false := by decide

lemma hasSubstr_om_om :
    hasSubstr "ShaderNodeOutputMaterial" "OutputMaterial" = true := by decide

lemma hasSubstr_gr_om :
    hasSubstr "ShaderNodeGroup" "OutputMaterial" = false := by decide

/-- Full characterisation of one successful plane construction on a scene
whose object, material and texture registries are empty and whose node
groups contain "PBR Rock Shader". -/
lemma construct_spec {cfg : Config} {ps : List Rat} {cuts srl : Int}
    {ds : Rat} {tn : String} {ao : List Val} {n : Nat} {gs : List String}
    {as : List (String × String)} {c0 : Option Nat} {md : String}
    {tr : List BpyEvent}
    (hps : cfg.get_vector3d "plane_scale" [1, 1, 1] = .ok ps)
    (hcuts : cfg.get_int "subdivision_cuts" 50 = .ok cuts)
    (hsrl : cfg.get_int "subdivision_render_levels" 3 = .ok srl)
    (hds : cfg.get_float "displacement_strength" 1 = .ok ds)
    (htn : cfg.get_string "tile_name" (some "RE_ground_plane") = .ok tn)
    (hao : cfg.get_list "AO" [Val.int 1, Val.int 1, Val.int 1, Val.int 1] =
      .ok ao)
    (hng : gs.contains "PBR Rock Shader" = true) :
    construct_ground_plane cfg (baseScene n gs as c0 md tr) =
      .ok { nextId := n + 1,
            objects := [constructedPlane n ps cuts srl ds tn],
            materials := [constructedMat ao],
            node_groups := gs,
            textures := [(tn ++ "_texture", "IMAGE")],
            assets := as, context := some n, mode := "OBJECT",
            trace := tr ++ constructEvents cuts tn } := by
  have hng2 : "PBR Rock Shader" ∈ gs := by
    simpa using hng
  simp [construct_ground_plane, baseScene, hps, hcuts, hsrl, hds, htn, hao,
    hng2, liftC,
    Bind.bind, Except.bind, Pure.pure, Except.pure,
    primitive_plane_add, context_object_set_name, data_objects_get,
    obj_set_scale, materials_new, mat_set_use_nodes, obj_add_material,
    data_materials_get, get_nodes_with_type, pyIndex0, nodes_remove,
    nodes_new, node_groups_get, node_set_tree, node_set_ao, links_new,
    create_node, pyLast, pyNodesGet, pyPenult, node_set_label, mode_set,
    mesh_subdivide, modifier_add, textures_new, data_textures_get,
    obj_modifier_update, ctx_modifier_update, editmode_toggle,
    transform_apply, obj_set_prop, Scene.updateObj, Scene.updateMat, pushEv,
    freshName_nil, freshName_displace, freshName_group, freshName_it0,
    freshName_it1, freshName_it2, freshName_it3, freshName_norm,
    hasSubstr_bp_bp, hasSubstr_om_bp, hasSubstr_om_om, hasSubstr_gr_om,
    defaultNodes, defaultLinks, nodeBaseName, modifierBaseName,
    constructedPlane, constructedMat, pbrNodes, pbrLinks, constructEvents]

/-- C1: for every truthy tile, `run`'s loop body executes exactly the two
phases in order: the shader import first, then the plane construction;
the successful outcome factors through an intermediate state whose trace
extends the initial trace by exactly the shader-import events, and the
final trace extends it by exactly the plane-construction events, so the
phases are neither reordered nor interleaved and nothing else runs. -/
theorem claim_C1 (t : Val) (s s' : Scene) (ht : truthy t = true)
    (h : process_tile t s = .ok s') :
    ∃ s1, load_shader (tileConfig t) s = .ok s1 ∧
      construct_ground_plane (tileConfig t) s1 = .ok s' ∧
      (∃ sp, (tileConfig t).get_string "shader_path" none = .ok sp ∧
        s1.trace = s.trace ++ loadEvents sp) ∧
      (∃ cuts tn, (tileConfig t).get_int "subdivision_cuts" 50 = .ok cuts ∧
        (tileConfig t).get_string "tile_name" (some "RE_ground_plane") =
          .ok tn ∧
        s'.trace = s1.trace ++ constructEvents cuts tn) := by
  rw [process_tile, if_pos ht] at h
  simp only [bind_ok_iff] at h
  obtain ⟨s1, hl, hc⟩ := h
  refine ⟨s1, hl, hc, ?_, ?_⟩
  · rw [load_shader_ok_iff] at hl
    obtain ⟨sp, hsp, _, rfl⟩ := hl
    exact ⟨sp, hsp, by simp [pushEv, loadEvents]⟩
  · exact construct_ok_trace hc

theorem claim_C1_witness :
    truthy wTile = true ∧
    (∃ s1, load_shader (tileConfig wTile) wScene = .ok s1 ∧
      construct_ground_plane (tileConfig wTile) s1 = .ok wFinal ∧
      (∃ sp, (tileConfig wTile).get_string "shader_path" none = .ok sp ∧
        s1.trace = wScene.trace ++ loadEvents sp) ∧
      (∃ cuts tn,
        (tileConfig wTile).get_int "subdivision_cuts" 50 = .ok cuts ∧
        (tileConfig wTile).get_string "tile_name" (some "RE_ground_plane") =
          .ok tn ∧
        wFinal.trace = s1.trace ++ constructEvents cuts tn)) :=
  ⟨rfl, claim_C1 wTile wScene wFinal rfl rfl⟩

/-- C2: for every tile, a successful shader import appends the node group
named exactly "PBR Rock Shader": the append call carries
filename "PBR Rock Shader" and directory `shader_path ++ "/NodeTree"`,
and the node group registry gains "PBR Rock Shader". -/
theorem claim_C2 (cfg : Config) (s s' : Scene)
    (h : load_shader cfg s = .ok s') :
    ∃ sp, cfg.get_string "shader_path" none = .ok sp ∧
      s'.trace = s.trace ++
        [BpyEvent.wmAppend "/NodeTree/PBR Rock Shader" "PBR Rock Shader"
          (sp ++ "/NodeTree")] ∧
      s'.node_groups = s.node_groups ++ ["PBR Rock Shader"] := by
  rw [load_shader_ok_iff] at h
  obtain ⟨sp, hsp, _, rfl⟩ := h
  exact ⟨sp, hsp, by simp [pushEv], by simp [pushEv]⟩

theorem claim_C2_witness :
    ∃ sp, (tileConfig wTile).get_string "shader_path" none = .ok sp ∧
      (pushEv (.wmAppend "/NodeTree/PBR Rock Shader" "PBR Rock Shader"
          "/a/file.blend/NodeTree")
        { wScene with node_groups := ["PBR Rock Shader"] }).trace =
        wScene.trace ++
          [BpyEvent.wmAppend "/NodeTree/PBR Rock Shader" "PBR Rock Shader"
            (sp ++ "/NodeTree")] ∧
      (pushEv (.wmAppend "/NodeTree/PBR Rock Shader" "PBR Rock Shader"
          "/a/file.blend/NodeTree")
        { wScene with node_groups := ["PBR Rock Shader"] }).node_groups =
        wScene.node_groups ++ ["PBR Rock Shader"] :=
  claim_C2 (tileConfig wTile) wScene _ rfl

lemma hasSubstr_gr_bp :
    hasSubstr "ShaderNodeGroup" "BsdfPrincipled" = false := by decide

lemma hasSubstr_ti_bp :
    hasSubstr "ShaderNodeTexImage" "BsdfPrincipled" = false := by decide

lemma hasSubstr_nm_bp :
    hasSubstr "ShaderNodeNormalMap" "BsdfPrincipled" = false := by decide

/-- C3: for every tile (arbitrary configuration), on a scene with fresh
registries and the shader available, the plane-construction phase builds
the material graph as claimed: the Principled BSDF node is gone, a group
node references "PBR Rock Shader" with its AO input set to the tile's AO
value and its Shader output linked to the material output's Surface
input, exactly four image-texture nodes are created in the order color,
roughness, reflection, normal, and the links are exactly the claimed
ones, with the normal texture routed through a Normal Map node. -/
theorem claim_C3 {cfg : Config} {ps : List Rat} {cuts srl : Int} {ds : Rat}
    {tn : String} {ao : List Val} {n : Nat} {gs : List String}
    {as : List (String × String)} {c0 : Option Nat} {md : String}
    {tr : List BpyEvent}
    (hps : cfg.get_vector3d "plane_scale" [1, 1, 1] = .ok ps)
    (hcuts : cfg.get_int "subdivision_cuts" 50 = .ok cuts)
    (hsrl : cfg.get_int "subdivision_render_levels" 3 = .ok srl)
    (hds : cfg.get_float "displacement_strength" 1 = .ok ds)
    (htn : cfg.get_string "tile_name" (some "RE_ground_plane") = .ok tn)
    (hao : cfg.get_list "AO" [Val.int 1, Val.int 1, Val.int 1, Val.int 1] =
      .ok ao)
    (hng : gs.contains "PBR Rock Shader" = true) :
    ∃ s', construct_ground_plane cfg (baseScene n gs as c0 md tr) = .ok s' ∧
      s'.materials = [constructedMat ao] ∧
      (constructedMat ao).nodes.filter
        (fun nd => hasSubstr nd.bl_idname "BsdfPrincipled") = [] ∧
      (∃ g, g ∈ (constructedMat ao).nodes ∧
        g.bl_idname = "ShaderNodeGroup" ∧
        g.nodeTreeRef = some "PBR Rock Shader" ∧
        g.aoDefault = some ao ∧
        SLink.mk g.name "Shader" "Material Output" "Surface" ∈
          (constructedMat ao).links) ∧
      ((constructedMat ao).nodes.filter
        (fun nd => nd.bl_idname == "ShaderNodeTexImage")).map SNode.label =
        ["color", "roughness", "reflection", "normal"] ∧
      (constructedMat ao).links = pbrLinks := by
  refine ⟨_, construct_spec hps hcuts hsrl hds htn hao hng, rfl, ?_, ?_, ?_,
    rfl⟩
  · simp [constructedMat, pbrNodes, List.filter, hasSubstr_om_bp,
      hasSubstr_gr_bp, hasSubstr_ti_bp, hasSubstr_nm_bp]
  · refine ⟨⟨"Group", "ShaderNodeGroup", "", some "PBR Rock Shader",
      some ao⟩, ?_, rfl, rfl, rfl, ?_⟩
    · simp [constructedMat, pbrNodes]
    · simp [constructedMat, pbrLinks]
  · simp [constructedMat, pbrNodes, List.filter]

theorem claim_C3_witness :
    ∃ s', construct_ground_plane (tileConfig wTile)
        (baseScene 0 ["PBR Rock Shader"] [] none "OBJECT" []) = .ok s' ∧
      s'.materials = [constructedMat wAO] ∧
      (constructedMat wAO).nodes.filter
        (fun nd => hasSubstr nd.bl_idname "BsdfPrincipled") = [] ∧
      (∃ g, g ∈ (constructedMat wAO).nodes ∧
        g.bl_idname = "ShaderNodeGroup" ∧
        g.nodeTreeRef = some "PBR Rock Shader" ∧
        g.aoDefault = some wAO ∧
        SLink.mk g.name "Shader" "Material Output" "Surface" ∈
          (constructedMat wAO).links) ∧
      ((constructedMat wAO).nodes.filter
        (fun nd => nd.bl_idname == "ShaderNodeTexImage")).map SNode.label =
        ["color", "roughness", "reflection", "normal"] ∧
      (constructedMat wAO).links = pbrLinks :=
  claim_C3 rfl rfl rfl rfl rfl rfl rfl

/-- C4 counterexample: with two tiles sharing the default tile name, the
run succeeds, but the plane constructed by the second tile ends with its
DISPLACE modifier holding no texture and LOCAL coordinates — the texture
assignment resolved the name to the first tile's plane — contradicting
the claim that for every tile the displacement modifier's texture is the
newly created texture with coordinates 'UV'. -/
theorem claim_C4_counterexample :
    ((run cfgDup wScene).toOption.bind (fun s => s.objects.get? 1)).map
        (fun o => o.modifiers.map
          (fun m => (m.mtype, m.texture, m.texture_coords))) =
      some [("SUBSURF", none, "LOCAL"), ("DISPLACE", none, "LOCAL")] := rfl

/-- C4, amended: for every tile whose `tile_name` names no pre-existing
object and collides with no existing texture name (fresh registries), the
constructed plane receives exactly one SUBSURF and one DISPLACE modifier;
the mesh is subdivided with `number_cuts` equal to the tile's
`subdivision_cuts`, the subdivision modifier's `render_levels` is the
tile's `subdivision_render_levels`, the displacement strength is the
tile's `displacement_strength`, and the displacement texture is the newly
created IMAGE texture named `tile_name + "_texture"` with 'UV'
coordinates. -/
theorem claim_C4_amended {cfg : Config} {ps : List Rat} {cuts srl : Int}
    {ds : Rat} {tn : String} {ao : List Val} {n : Nat} {gs : List String}
    {as : List (String × String)} {c0 : Option Nat} {md : String}
    {tr : List BpyEvent}
    (hps : cfg.get_vector3d "plane_scale" [1, 1, 1] = .ok ps)
    (hcuts : cfg.get_int "subdivision_cuts" 50 = .ok cuts)
    (hsrl : cfg.get_int "subdivision_render_levels" 3 = .ok srl)
    (hds : cfg.get_float "displacement_strength" 1 = .ok ds)
    (htn : cfg.get_string "tile_name" (some "RE_ground_plane") = .ok tn)
    (hao : cfg.get_list "AO" [Val.int 1, Val.int 1, Val.int 1, Val.int 1] =
      .ok ao)
    (hng : gs.contains "PBR Rock Shader" = true) :
    ∃ s', construct_ground_plane cfg (baseScene n gs as c0 md tr) = .ok s' ∧
      s'.objects = [constructedPlane n ps cuts srl ds tn] ∧
      (constructedPlane n ps cuts srl ds tn).modifiers.map Modifier.mtype =
        ["SUBSURF", "DISPLACE"] ∧
      (constructedPlane n ps cuts srl ds tn).subdivideCuts = [cuts] ∧
      (constructedPlane n ps cuts srl ds tn).modifiers =
        [{ mtype := "SUBSURF", name := "Subdivision", render_levels := srl },
         { mtype := "DISPLACE", name := "Displace", strength := ds,
           texture := some (tn ++ "_texture"), texture_coords := "UV" }] ∧
      s'.textures = [(tn ++ "_texture", "IMAGE")] ∧
      s'.trace = tr ++ constructEvents cuts tn := by
  refine ⟨_, construct_spec hps hcuts hsrl hds htn hao hng, rfl, ?_, rfl,
    rfl, rfl, rfl⟩
  simp [constructedPlane]

theorem claim_C4_witness :
    ∃ s', construct_ground_plane (tileConfig wTile)
        (baseScene 0 ["PBR Rock Shader"] [] none "OBJECT" []) = .ok s' ∧
      s'.objects = [constructedPlane 0 [1, 1, 1] 50 3 1 "RE_ground_plane"] ∧
      (constructedPlane 0 [1, 1, 1] 50 3 1 "RE_ground_plane").modifiers.map
        Modifier.mtype = ["SUBSURF", "DISPLACE"] ∧
      (constructedPlane 0 [1, 1, 1] 50 3 1 "RE_ground_plane").subdivideCuts =
        [50] ∧
      (constructedPlane 0 [1, 1, 1] 50 3 1 "RE_ground_plane").modifiers =
        [{ mtype := "SUBSURF", name := "Subdivision", render_levels := 3 },
         { mtype := "DISPLACE", name := "Displace", strength := 1,
           texture := some ("RE_ground_plane" ++ "_texture"),
           texture_coords := "UV" }] ∧
      s'.textures = [("RE_ground_plane" ++ "_texture", "IMAGE")] ∧
      s'.trace = [] ++ constructEvents 50 "RE_ground_plane" :=
  claim_C4_amended rfl rfl rfl rfl rfl rfl rfl

/-- C9: when a tile omits "plane_scale", the default actually passed to
the configuration lookup is `[1, 1, 1]` — not the `[10, 10, 1]` stated in
the class's documentation table — so the plane's scale is set to
`[1, 1, 1]`, and that scale is then baked into the mesh by the applied
scale transform. -/
theorem claim_C9 {cfg : Config} {cuts srl : Int} {ds : Rat} {tn : String}
    {ao : List Val} {n : Nat} {gs : List String}
    {as : List (String × String)} {c0 : Option Nat} {md : String}
    {tr : List BpyEvent}
    (hnone : cfg.lookup "plane_scale" = none)
    (hcuts : cfg.get_int "subdivision_cuts" 50 = .ok cuts)
    (hsrl : cfg.get_int "subdivision_render_levels" 3 = .ok srl)
    (hds : cfg.get_float "displacement_strength" 1 = .ok ds)
    (htn : cfg.get_string "tile_name" (some "RE_ground_plane") = .ok tn)
    (hao : cfg.get_list "AO" [Val.int 1, Val.int 1, Val.int 1, Val.int 1] =
      .ok ao)
    (hng : gs.contains "PBR Rock Shader" = true) :
    cfg.get_vector3d "plane_scale" [1, 1, 1] = .ok [1, 1, 1] ∧
    ([1, 1, 1] : List Rat) ≠ [10, 10, 1] ∧
    ∃ s', construct_ground_plane cfg (baseScene n gs as c0 md tr) = .ok s' ∧
      s'.objects = [constructedPlane n [1, 1, 1] cuts srl ds tn] ∧
      (constructedPlane n [1, 1, 1] cuts srl ds tn).scale = [1, 1, 1] ∧
      (constructedPlane n [1, 1, 1] cuts srl ds tn).bakedScale = [1, 1, 1] ∧
      s'.trace = tr ++ constructEvents cuts tn ∧
      BpyEvent.transformApply false false true ∈ s'.trace := by
  have hps : cfg.get_vector3d "plane_scale" [1, 1, 1] = .ok [1, 1, 1] := by
    simp [Config.get_vector3d, hnone]
  refine ⟨hps, by decide, _,
    construct_spec hps hcuts hsrl hds htn hao hng, rfl, rfl, ?_, rfl, ?_⟩
  · simp [constructedPlane]
  · simp [constructEvents]

theorem claim_C9_witness :
    (tileConfig wTile).get_vector3d "plane_scale" [1, 1, 1] =
      .ok [1, 1, 1] ∧
    ([1, 1, 1] : List Rat) ≠ [10, 10, 1] ∧
    ∃ s', construct_ground_plane (tileConfig wTile)
        (baseScene 0 ["PBR Rock Shader"] [] none "OBJECT" []) = .ok s' ∧
      s'.objects = [constructedPlane 0 [1, 1, 1] 50 3 1 "RE_ground_plane"] ∧
      (constructedPlane 0 [1, 1, 1] 50 3 1 "RE_ground_plane").scale =
        [1, 1, 1] ∧
      (constructedPlane 0 [1, 1, 1] 50 3 1 "RE_ground_plane").bakedScale =
        [1, 1, 1] ∧
      s'.trace = [] ++ constructEvents 50 "RE_ground_plane" ∧
      BpyEvent.transformApply false false true ∈ s'.trace :=
  claim_C9 rfl rfl rfl rfl rfl rfl rfl

/-- C10 counterexample: with two tiles sharing the default tile name, the
plane constructed by the second tile ends with no custom properties and
no material at all — the physics flag and the material went to the first
tile's plane instead — contradicting the claim that every constructed
plane ends with `physics = False` and carries a newly created
material. -/
theorem claim_C10_counterexample :
    ((run cfgDup wScene).toOption.bind (fun s => s.objects.get? 1)).map
        (fun o => (o.props, o.materials)) = some ([], []) := rfl

/-- C10, amended: for every tile whose `tile_name` names no pre-existing
object (fresh registries), the constructed plane ends with the custom
property "physics" set to False, is renamed to the tile's `tile_name`,
and carries a newly created material whose requested name is the fixed
string "re_ground_mat" with node-based shading enabled, whatever optional
keys were supplied. -/
theorem claim_C10_amended {cfg : Config} {ps : List Rat} {cuts srl : Int}
    {ds : Rat} {tn : String} {ao : List Val} {n : Nat} {gs : List String}
    {as : List (String × String)} {c0 : Option Nat} {md : String}
    {tr : List BpyEvent}
    (hps : cfg.get_vector3d "plane_scale" [1, 1, 1] = .ok ps)
    (hcuts : cfg.get_int "subdivision_cuts" 50 = .ok cuts)
    (hsrl : cfg.get_int "subdivision_render_levels" 3 = .ok srl)
    (hds : cfg.get_float "displacement_strength" 1 = .ok ds)
    (htn : cfg.get_string "tile_name" (some "RE_ground_plane") = .ok tn)
    (hao : cfg.get_list "AO" [Val.int 1, Val.int 1, Val.int 1, Val.int 1] =
      .ok ao)
    (hng : gs.contains "PBR Rock Shader" = true) :
    ∃ s', construct_ground_plane cfg (baseScene n gs as c0 md tr) = .ok s' ∧
      s'.objects = [constructedPlane n ps cuts srl ds tn] ∧
      (constructedPlane n ps cuts srl ds tn).props = [("physics", false)] ∧
      (constructedPlane n ps cuts srl ds tn).name = tn ∧
      (constructedPlane n ps cuts srl ds tn).materials = ["re_ground_mat"] ∧
      s'.materials = [constructedMat ao] ∧
      (constructedMat ao).use_nodes = true ∧
      BpyEvent.materialsNew "re_ground_mat" ∈ s'.trace := by
  refine ⟨_, construct_spec hps hcuts hsrl hds htn hao hng, rfl, rfl, rfl,
    rfl, rfl, rfl, ?_⟩
  simp [constructEvents]

theorem claim_C10_witness :
    ∃ s', construct_ground_plane (tileConfig wTile)
        (baseScene 0 ["PBR Rock Shader"] [] none "OBJECT" []) = .ok s' ∧
      s'.objects = [constructedPlane 0 [1, 1, 1] 50 3 1 "RE_ground_plane"] ∧
      (constructedPlane 0 [1, 1, 1] 50 3 1 "RE_ground_plane").props =
        [("physics", false)] ∧
      (constructedPlane 0 [1, 1, 1] 50 3 1 "RE_ground_plane").name =
        "RE_ground_plane" ∧
      (constructedPlane 0 [1, 1, 1] 50 3 1 "RE_ground_plane").materials =
        ["re_ground_mat"] ∧
      s'.materials = [constructedMat wAO] ∧
      (constructedMat wAO).use_nodes = true ∧
      BpyEvent.materialsNew "re_ground_mat" ∈ s'.trace :=
  claim_C10_amended rfl rfl rfl rfl rfl rfl rfl

/-- C5: the module's result depends on the configuration only through the
key "tiles" at top level and the seven per-tile keys `shader_path`,
`plane_scale`, `subdivision_cuts`, `subdivision_render_levels`,
`displacement_strength`, `tile_name` and `AO`: two configurations whose
lookups of those keys agree produce identical results, whatever other
keys they carry. -/
theorem claim_C5 :
    (∀ (c1 c2 : Config) (s : Scene),
      c1.get_list "tiles" [] = c2.get_list "tiles" [] →
      run c1 s = run c2 s) ∧
    (∀ (g1 g2 : Config) (s : Scene),
      g1.get_string "shader_path" none = g2.get_string "shader_path" none →
      g1.get_vector3d "plane_scale" [1, 1, 1] =
        g2.get_vector3d "plane_scale" [1, 1, 1] →
      g1.get_int "subdivision_cuts" 50 = g2.get_int "subdivision_cuts" 50 →
      g1.get_int "subdivision_render_levels" 3 =
        g2.get_int "subdivision_render_levels" 3 →
      g1.get_float "displacement_strength" 1 =
        g2.get_float "displacement_strength" 1 →
      g1.get_string "tile_name" (some "RE_ground_plane") =
        g2.get_string "tile_name" (some "RE_ground_plane") →
      g1.get_list "AO" [Val.int 1, Val.int 1, Val.int 1, Val.int 1] =
        g2.get_list "AO" [Val.int 1, Val.int 1, Val.int 1, Val.int 1] →
      load_shader g1 s = load_shader g2 s ∧
        construct_ground_plane g1 s = construct_ground_plane g2 s) := by
  constructor
  · intro c1 c2 s h
    simp only [run, h]
  · intro g1 g2 s h1 h2 h3 h4 h5 h6 h7
    constructor
    · simp only [load_shader, h1]
    · simp only [construct_ground_plane, h2, h3, h4, h5, h6, h7]

theorem claim_C5_witness :
    run wCfgA wScene = run wCfgB wScene ∧
    (load_shader wG1 wScene = load_shader (tileConfig wTile) wScene ∧
      construct_ground_plane wG1 wScene =
        construct_ground_plane (tileConfig wTile) wScene) :=
  ⟨claim_C5.1 wCfgA wCfgB wScene rfl,
   claim_C5.2 wG1 (tileConfig wTile) wScene rfl rfl rfl rfl rfl rfl rfl⟩

lemma run_tiles_prefix_error {ts1 : List Val} {t : Val} {ts2 : List Val}
    {s s1 : Scene} {e : Err} (h1 : run_tiles ts1 s = .ok s1)
    (h2 : process_tile t s1 = .error e) :
    run_tiles (ts1 ++ t :: ts2) s = .error e := by
  induction ts1 generalizing s with
  | nil =>
      simp only [run_tiles, Except.ok.injEq] at h1
      subst h1
      simp only [List.nil_append, run_tiles]
      exact bind_error_of_error h2
  | cons a as ih =>
      simp only [run_tiles, bind_ok_iff] at h1
      obtain ⟨b, hb, hbs⟩ := h1
      simp only [List.cons_append, run_tiles]
      rw [hb]
      simpa [Bind.bind, Except.bind] using ih hbs

/-- C6: the module catches nothing: an error in any phase propagates
verbatim (message and the scene state reached so far) through the loop of
`run`, and the mutations made before the failure — by earlier tiles, or
by the shader import of the failing tile — stay in the error's scene
state, so there is no rollback or atomicity. -/
theorem claim_C6 :
    (∀ (ts1 : List Val) (t : Val) (ts2 : List Val) (s s1 : Scene) (e : Err),
      run_tiles ts1 s = .ok s1 → process_tile t s1 = .error e →
      run_tiles (ts1 ++ t :: ts2) s = .error e) ∧
    (∀ (t : Val) (s : Scene) (e : Err), truthy t = true →
      load_shader (tileConfig t) s = .error e →
      process_tile t s = .error e) ∧
    (∀ (t : Val) (s s1 : Scene) (e : Err), truthy t = true →
      load_shader (tileConfig t) s = .ok s1 →
      construct_ground_plane (tileConfig t) s1 = .error e →
      process_tile t s = .error e) := by
  refine ⟨?_, ?_, ?_⟩
  · intro ts1 t ts2 s s1 e h1 h2
    exact run_tiles_prefix_error h1 h2
  · intro t s e ht hl
    rw [process_tile, if_pos ht]
    exact bind_error_of_error hl
  · intro t s s1 e ht hl hc
    rw [process_tile, if_pos ht]
    exact bind_error_of_ok hl hc

theorem claim_C6_witness :
    run_tiles [wTile, wBadTile] wScene =
      .error ("key shader_path not found", wFinal) ∧
    process_tile wMissTile wScene =
      .error ("append failed: /NodeTree/PBR Rock Shader", wScene) ∧
    process_tile wBadCutsTile wScene =
      .error ("wrong type for key subdivision_cuts", wMid2) :=
  ⟨claim_C6.1 [wTile] wBadTile [] wScene wFinal
      ("key shader_path not found", wFinal) rfl rfl,
   claim_C6.2.1 wMissTile wScene
      ("append failed: /NodeTree/PBR Rock Shader", wScene) rfl rfl,
   claim_C6.2.2 wBadCutsTile wScene wMid2
      ("wrong type for key subdivision_cuts", wMid2) rfl rfl rfl⟩

/-- C7: `shader_path` is the only required per-tile key: a truthy tile
without it fails with the error raised by the lookup, and — because the
lookup happens in the shader-import phase before any host call — the
error carries the scene unchanged; each of the six optional keys resolves
to its default when absent, without raising. -/
theorem claim_C7 :
    (∀ (t : Val) (s : Scene), truthy t = true →
      (tileConfig t).lookup "shader_path" = none →
      ∃ m, process_tile t s = .error (m, s)) ∧
    (∀ g : Config, g.lookup "plane_scale" = none →
      g.get_vector3d "plane_scale" [1, 1, 1] = .ok [1, 1, 1]) ∧
    (∀ g : Config, g.lookup "subdivision_cuts" = none →
      g.get_int "subdivision_cuts" 50 = .ok 50) ∧
    (∀ g : Config, g.lookup "subdivision_render_levels" = none →
      g.get_int "subdivision_render_levels" 3 = .ok 3) ∧
    (∀ g : Config, g.lookup "displacement_strength" = none →
      g.get_float "displacement_strength" 1 = .ok 1) ∧
    (∀ g : Config, g.lookup "tile_name" = none →
      g.get_string "tile_name" (some "RE_ground_plane") =
        .ok "RE_ground_plane") ∧
    (∀ g : Config, g.lookup "AO" = none →
      g.get_list "AO" [Val.int 1, Val.int 1, Val.int 1, Val.int 1] =
        .ok [Val.int 1, Val.int 1, Val.int 1, Val.int 1]) := by
  refine ⟨?_, ?_, ?_, ?_, ?_, ?_, ?_⟩
  · intro t s ht hlk
    have h1 : (tileConfig t).get_string "shader_path" none =
        .error "key shader_path not found" := by
      simp [Config.get_string, hlk]
    refine ⟨"key shader_path not found", ?_⟩
    rw [process_tile, if_pos ht]
    apply bind_error_of_error
    show load_shader (tileConfig t) s = _
    unfold load_shader
    apply bind_error_of_error
    rw [h1]
    rfl
  · intro g h; simp [Config.get_vector3d, h]
  · intro g h; simp [Config.get_int, h]
  · intro g h; simp [Config.get_int, h]
  · intro g h; simp [Config.get_float, h]
  · intro g h; simp [Config.get_string, h]
  · intro g h; simp [Config.get_list, h]

theorem claim_C7_witness :
    (∃ m, process_tile wBadTile wScene = .error (m, wScene)) ∧
    wEmptyCfg.get_vector3d "plane_scale" [1, 1, 1] = .ok [1, 1, 1] ∧
    wEmptyCfg.get_int "subdivision_cuts" 50 = .ok 50 ∧
    wEmptyCfg.get_int "subdivision_render_levels" 3 = .ok 3 ∧
    wEmptyCfg.get_float "displacement_strength" 1 = .ok 1 ∧
    wEmptyCfg.get_string "tile_name" (some "RE_ground_plane") =
      .ok "RE_ground_plane" ∧
    wEmptyCfg.get_list "AO" [Val.int 1, Val.int 1, Val.int 1, Val.int 1] =
      .ok [Val.int 1, Val.int 1, Val.int 1, Val.int 1] :=
  ⟨claim_C7.1 wBadTile wScene rfl rfl,
   claim_C7.2.1 wEmptyCfg rfl,
   claim_C7.2.2.1 wEmptyCfg rfl,
   claim_C7.2.2.2.1 wEmptyCfg rfl,
   claim_C7.2.2.2.2.1 wEmptyCfg rfl,
   claim_C7.2.2.2.2.2.1 wEmptyCfg rfl,
   claim_C7.2.2.2.2.2.2 wEmptyCfg rfl⟩

lemma process_tile_falsy (t : Val) (s : Scene) (ht : truthy t = false) :
    process_tile t s = .ok s := by
  rw [process_tile]
  simp [ht]

/-- C8: a missing "tiles" key defaults to the empty list, in which case
`run` returns the scene untouched; a falsy tile value is skipped whole —
neither phase runs for it and it changes nothing, wherever it occurs in
the tile list. -/
theorem claim_C8 :
    (∀ (cfg : Config) (s : Scene), cfg.lookup "tiles" = none →
      run cfg s = .ok s) ∧
    (∀ (t : Val) (s : Scene), truthy t = false →
      process_tile t s = .ok s) ∧
    (∀ (ts1 : List Val) (t : Val) (ts2 : List Val) (s : Scene),
      truthy t = false →
      run_tiles (ts1 ++ t :: ts2) s = run_tiles (ts1 ++ ts2) s) := by
  refine ⟨?_, ?_, ?_⟩
  · intro cfg s h
    have h1 : cfg.get_list "tiles" [] = .ok [] := by
      simp [Config.get_list, h]
    rw [run, h1]
    rfl
  · intro t s ht
    exact process_tile_falsy t s ht
  · intro ts1 t ts2 s ht
    induction ts1 generalizing s with
    | nil =>
        simp only [List.nil_append, run_tiles]
        rw [process_tile_falsy t s ht]
        rfl
    | cons a as ih =>
        simp only [List.cons_append, run_tiles]
        cases hp : process_tile a s
        · simp [Bind.bind, Except.bind]
        · simp only [Bind.bind, Except.bind]
          exact ih _

theorem claim_C8_witness :
    run wNoTilesCfg wScene = .ok wScene ∧
    process_tile wFalsyTile wScene = .ok wScene ∧
    run_tiles ([wTile] ++ wFalsyTile :: []) wScene =
      run_tiles ([wTile] ++ []) wScene :=
  ⟨claim_C8.1 wNoTilesCfg wScene rfl,
   claim_C8.2.1 wFalsyTile wScene rfl,
   claim_C8.2.2 [wTile] wFalsyTile [] wScene rfl⟩
